import Mathlib

/-!
Shallow embedding of the decision core of `src/app.py` (AgriScan Plant Doctor).

Modelling conventions:
* Python decimal literals (confidence scores) are embedded as exact rationals.
* `np.random.rand(n)` is modelled by an explicit list `raw : List ℚ` of drawn
  values, each in `[0, 1)`; theorems state the needed range facts as hypotheses.
* `np.argsort` is modelled as the stable ascending argsort: indices sorted by
  value, exact value ties kept in ascending index order.  It is realised by
  sorting indices with the lexicographic order on (value, index).
* The global `CLASS_NAMES` read by `detect_disease` is passed as an explicit
  `catalog` parameter; the real program always instantiates it with the fixed
  ten-entry list `CLASS_NAMES` below.
* Division follows the rational convention `x / 0 = 0` where the Python code
  would produce NaN (`0.0 / 0.0`); theorems that need a well-defined
  normalisation carry a positivity hypothesis on the sum of the draws.
-/

namespace AgriScan

/-- Label catalog: `CLASS_NAMES`, src/app.py lines 121-132. -/
def CLASS_NAMES : List String :=
  ["Tomato Bacterial Spot",
   "Tomato Early Blight",
   "Tomato Late Blight",
   "Tomato Leaf Mold",
   "Tomato Septoria Leaf Spot",
   "Tomato Spider Mites",
   "Tomato Target Spot",
   "Tomato Yellow Leaf Curl Virus",
   "Tomato Mosaic Virus",
   "Healthy Tomato"]

/-- One entry of the result list built by `detect_disease`
(the Python dict with keys "disease" and "confidence"). -/
structure Prediction where
  disease : String
  confidence : ℚ
deriving DecidableEq, Repr

instance : Inhabited Prediction := ⟨⟨"", 0⟩⟩

/-- Tests whether `pat` is an initial segment of the second list
(character-by-character comparison). -/
def headMatch : List Char → List Char → Bool
  | [], _ => true
  | _ :: _, [] => false
  | p :: ps, h :: hs => p == h && headMatch ps hs

/-- Tests whether `pat` occurs contiguously anywhere in the second list. -/
def hasSub (pat : List Char) : List Char → Bool
  | [] => headMatch pat []
  | h :: hs => headMatch pat (h :: hs) || hasSub pat hs

/-- Python substring containment: `pat in hay`. -/
def strContains (hay pat : String) : Bool :=
  hasSub pat.data hay.data

/-- Treatment lookup: `get_treatments`, src/app.py lines 165-205.
The nested `if`/`elif` chain on substring tests is embedded directly. -/
def get_treatments (disease_name : String) : List String :=
  if strContains disease_name "Healthy" then
    ["Continue regular monitoring",
     "Apply balanced NPK fertilizer",
     "Maintain proper watering schedule",
     "Ensure adequate sunlight exposure"]
  else if strContains disease_name "Early Blight" then
    ["Remove infected leaves immediately",
     "Apply copper-based fungicide weekly",
     "Improve air circulation around plants",
     "Rotate crops next season"]
  else if strContains disease_name "Late Blight" then
    ["Apply chlorothalonil (0.05%) immediately",
     "Destroy severely infected plants",
     "Avoid overhead watering",
     "Plant resistant varieties next season"]
  else if strContains disease_name "Septoria" then
    ["Apply mancozeb fungicide (2g/L water)",
     "Remove and destroy infected leaves",
     "Stake plants for better airflow",
     "Mulch to prevent soil splash"]
  else
    ["Apply neem oil spray every 7 days",
     "Remove affected plant parts",
     "Introduce beneficial insects",
     "Apply sulfur-based fungicide"]

/-- Ordered rule table as the specification words it: (pattern, advice) pairs
checked in priority order.  Spec-side definition, for the refinement claim. -/
def specTreatmentRules : List (String × List String) :=
  [("Healthy",
    ["Continue regular monitoring",
     "Apply balanced NPK fertilizer",
     "Maintain proper watering schedule",
     "Ensure adequate sunlight exposure"]),
   ("Early Blight",
    ["Remove infected leaves immediately",
     "Apply copper-based fungicide weekly",
     "Improve air circulation around plants",
     "Rotate crops next season"]),
   ("Late Blight",
    ["Apply chlorothalonil (0.05%) immediately",
     "Destroy severely infected plants",
     "Avoid overhead watering",
     "Plant resistant varieties next season"]),
   ("Septoria",
    ["Apply mancozeb fungicide (2g/L water)",
     "Remove and destroy infected leaves",
     "Stake plants for better airflow",
     "Mulch to prevent soil splash"])]

/-- Default advice list (the final `else` branch), spec-side. -/
def specDefaultTreatments : List String :=
  ["Apply neem oil spray every 7 days",
   "Remove affected plant parts",
   "Introduce beneficial insects",
   "Apply sulfur-based fungicide"]

/-- First-match lookup over an ordered rule table, as the specification words
the matching policy.  Spec-side definition, for the refinement claim. -/
def specFirstMatch (name : String) : List (String × List String) → List String → List String
  | [], dflt => dflt
  | (pat, adv) :: rest, dflt =>
    if strContains name pat then adv else specFirstMatch name rest dflt

/-- Characters of the crop-name pattern removed by
`name.replace("Tomato ", "")`. -/
def tomatoPat : List Char := "Tomato ".data

/-- Fuel-indexed removal of every occurrence of `tomatoPat`, mirroring Python
`str.replace` with an empty replacement (left-to-right, non-overlapping).
Fuel bounds the number of consumed characters so the recursion is structural. -/
def removeTomatoFuel : Nat → List Char → List Char
  | 0, l => l
  | _ + 1, [] => []
  | fuel + 1, c :: cs =>
    if headMatch tomatoPat (c :: cs) then removeTomatoFuel fuel (cs.drop 6)
    else c :: removeTomatoFuel fuel cs

/-- Removal of every occurrence of `"Tomato "`:
Python `name.replace("Tomato ", "")`. -/
def removeTomato (l : List Char) : List Char :=
  removeTomatoFuel l.length l

/-- Ellipsis marker appended to truncated chart labels. -/
def ellipsisChars : List Char := ['.', '.', '.']

/-- Chart label shortening, src/app.py line 405:
`name.replace("Tomato ", "")[:20] + ("..." if len(name) > 20 else "")`.
Note the ellipsis test reads the length of the ORIGINAL `name`. -/
def shorten_name (name : String) : String :=
  String.mk ((removeTomato name.data).take 20 ++
    (if 20 < name.length then ellipsisChars else []))

/-- Label-shortening rule as the claim words it: strip the crop-name prefix,
then truncate and append the ellipsis exactly when the STRIPPED remainder
exceeds 20 characters.  Spec-side definition, for refutation. -/
def specShortenRule (name : String) : String :=
  let stripped := removeTomato name.data
  if 20 < stripped.length then String.mk (stripped.take 20 ++ ellipsisChars)
  else String.mk stripped

/-- Preset scenarios, src/app.py lines 298-334: the three sample buttons store
hard-coded result lists; any other name has no button.  Entry point named
`scan_from_preset` after the specification. -/
def scan_from_preset (name : String) : Option (List Prediction) :=
  if name = "Early Blight" then
    some [⟨"Tomato Early Blight", 92/100⟩,
          ⟨"Tomato Septoria Leaf Spot", 6/100⟩,
          ⟨"Tomato Late Blight", 2/100⟩]
  else if name = "Late Blight" then
    some [⟨"Tomato Late Blight", 88/100⟩,
          ⟨"Tomato Early Blight", 8/100⟩,
          ⟨"Tomato Leaf Mold", 4/100⟩]
  else if name = "Healthy" then
    some [⟨"Healthy Tomato", 95/100⟩,
          ⟨"Tomato Bacterial Spot", 3/100⟩,
          ⟨"Tomato Yellow Leaf Curl Virus", 2/100⟩]
  else none

/-- Confidence normalisation, src/app.py lines 149-150:
`confidences = confidences / confidences.sum()`. -/
def normalize (raw : List ℚ) : List ℚ :=
  raw.map (fun x => x / raw.sum)

/-- Index comparison realising the stable ascending argsort: compare by value,
break exact value ties by ascending index. -/
def lexLe (c : Nat → ℚ) (i j : Nat) : Prop :=
  c i < c j ∨ (c i = c j ∧ i ≤ j)

instance (c : Nat → ℚ) : DecidableRel (lexLe c) :=
  fun i j => inferInstanceAs (Decidable (c i < c j ∨ (c i = c j ∧ i ≤ j)))

instance (c : Nat → ℚ) : IsTotal Nat (lexLe c) where
  total i j := by
    rcases lt_trichotomy (c i) (c j) with h | h | h
    · exact Or.inl (Or.inl h)
    · rcases Nat.le_total i j with hij | hij
      · exact Or.inl (Or.inr ⟨h, hij⟩)
      · exact Or.inr (Or.inr ⟨h.symm, hij⟩)
    · exact Or.inr (Or.inl h)

instance (c : Nat → ℚ) : IsTrans Nat (lexLe c) where
  trans i j k hij hjk := by
    rcases hij with h1 | ⟨e1, l1⟩ <;> rcases hjk with h2 | ⟨e2, l2⟩
    · exact Or.inl (h1.trans h2)
    · exact Or.inl (by rw [← e2]; exact h1)
    · exact Or.inl (by rw [e1]; exact h2)
    · exact Or.inr ⟨e1.trans e2, l1.trans l2⟩

/-- Stable ascending argsort of a list of values: `np.argsort(xs)` under the
stability convention described in the file header. -/
def argsort (xs : List ℚ) : List Nat :=
  List.insertionSort (lexLe fun i => xs.getD i 0) (List.range xs.length)

/-- Top-3 index extraction, src/app.py line 153:
`np.argsort(confidences)[::-1][:3]`. -/
def topIndices (raw : List ℚ) : List Nat :=
  ((argsort (normalize raw)).reverse).take 3

/-- Mock disease detection, src/app.py lines 142-162.  The `image` argument is
never inspected (as in the source); the shuffled copy of the catalog built on
lines 145-146 is dead code and is omitted; `raw` models the draws of
`np.random.rand(len(CLASS_NAMES))`. -/
def detect_disease {α : Type} (catalog : List String) (_image : Option α)
    (raw : List ℚ) : List Prediction :=
  (topIndices raw).map fun idx =>
    { disease := catalog.getD idx "", confidence := (normalize raw).getD idx 0 }

/-- Chart data assembled by the results panel, src/app.py lines 399-413:
one (shortened label, confidence) pair per prediction, in result order, with
the fixed x-axis range 0-1 (`ax.set_xlim(0, 1)`); `ax.invert_yaxis()` renders
the first pair topmost. -/
structure ChartSpec where
  pairs : List (String × ℚ)
  axisLow : ℚ
  axisHigh : ℚ
deriving DecidableEq, Repr

/-- Chart formatting, src/app.py lines 399-413, named after the specification
contract `format_chart`. -/
def format_chart (results : List Prediction) : ChartSpec :=
  { pairs := results.map fun r => (shorten_name r.disease, r.confidence)
    axisLow := 0
    axisHigh := 1 }

/-- ScanResult invariant of the specification: exactly 3 predictions, every
label drawn from the catalog, confidences strictly descending, each in
`[0, 1]`, and summing to exactly 1. -/
def ScanInv (l : List Prediction) : Prop :=
  l.length = 3 ∧
  (∀ p ∈ l, p.disease ∈ CLASS_NAMES ∧ 0 ≤ p.confidence ∧ p.confidence ≤ 1) ∧
  l.Pairwise (fun p q => q.confidence < p.confidence) ∧
  (l.map Prediction.confidence).sum = 1

instance (l : List Prediction) : Decidable (ScanInv l) := by
  unfold ScanInv; infer_instance

end AgriScan

namespace AgriScan

/-! Helper lemmas about the diagnosis pipeline. -/

/-- Confidence of catalog index `i` in the normalised distribution. -/
def confFn (raw : List ℚ) : Nat → ℚ :=
  fun i => (normalize raw).getD i 0

lemma length_normalize (raw : List ℚ) : (normalize raw).length = raw.length := by
  simp [normalize]

lemma sum_map_div (l : List ℚ) (s : ℚ) :
    (l.map (fun x => x / s)).sum = l.sum / s := by
  induction l with
  | nil => simp
  | cons a t ih => simp [ih, add_div]

lemma normalize_bounds (raw : List ℚ) (hnn : ∀ x ∈ raw, 0 ≤ x)
    (hpos : 0 < raw.sum) :
    ∀ x ∈ normalize raw, 0 ≤ x ∧ x ≤ 1 := by
  intro x hx
  obtain ⟨y, hy, rfl⟩ := List.mem_map.1 hx
  exact ⟨div_nonneg (hnn y hy) hpos.le,
    (div_le_one hpos).2 (List.single_le_sum hnn y hy)⟩

lemma argsort_sorted (xs : List ℚ) :
    (argsort xs).Pairwise (lexLe fun i => xs.getD i 0) :=
  List.sorted_insertionSort _ _

lemma mem_argsort {xs : List ℚ} {i : Nat} (h : i ∈ argsort xs) : i < xs.length := by
  have h2 : i ∈ List.range xs.length := (List.perm_insertionSort _ _).mem_iff.1 h
  simpa [List.mem_range] using h2

lemma argsort_nodup (xs : List ℚ) : (argsort xs).Nodup :=
  (List.perm_insertionSort _ _).nodup_iff.2 (List.nodup_range _)

lemma mem_topIndices {raw : List ℚ} {i : Nat} (h : i ∈ topIndices raw) :
    i < raw.length := by
  have h1 : i ∈ (argsort (normalize raw)).reverse := List.take_subset _ _ h
  rw [List.mem_reverse] at h1
  have h2 := mem_argsort h1
  simpa [length_normalize] using h2

lemma topIndices_pairwise (raw : List ℚ) :
    (topIndices raw).Pairwise (fun i j => lexLe (confFn raw) j i) := by
  have hs := argsort_sorted (normalize raw)
  have hr : ((argsort (normalize raw)).reverse).Pairwise
      (fun i j => lexLe (confFn raw) j i) := List.pairwise_reverse.2 hs
  exact hr.sublist (List.take_sublist _ _)

lemma topIndices_nodup (raw : List ℚ) : (topIndices raw).Nodup := by
  have h1 : ((argsort (normalize raw)).reverse).Nodup :=
    List.nodup_reverse.2 (argsort_nodup _)
  exact h1.sublist (List.take_sublist _ _)

lemma topIndices_pairwise_strict (raw : List ℚ) :
    (topIndices raw).Pairwise (fun i j =>
      confFn raw j < confFn raw i ∨ (confFn raw j = confFn raw i ∧ j < i)) := by
  have hp := (topIndices_pairwise raw).and (topIndices_nodup raw)
  refine hp.imp ?_
  rintro i j ⟨hlex, hne⟩
  rcases hlex with h | ⟨he, hle⟩
  · exact Or.inl h
  · exact Or.inr ⟨he, lt_of_le_of_ne hle hne.symm⟩

lemma confFn_mem {raw : List ℚ} {i : Nat} (h : i < raw.length) :
    confFn raw i ∈ normalize raw := by
  have h2 : i < (normalize raw).length := by
    simpa [length_normalize] using h
  rw [confFn, List.getD_eq_getElem _ _ h2]
  exact List.getElem_mem h2

end AgriScan

namespace AgriScan

/-- Drawn values used as a generic random-source state in witnesses:
ten distinct values in `[0, 1)` summing to 1. -/
def rawG : List ℚ :=
  [0, 1/45, 2/45, 3/45, 4/45, 5/45, 6/45, 7/45, 8/45, 9/45]

/-- Random-source state in which every draw is exactly 0. -/
def rawZeros : List ℚ :=
  [0, 0, 0, 0, 0, 0, 0, 0, 0, 0]

/-- Claim C3: for every disease-name string, `get_treatments` checks the
substring rules in the fixed priority order Healthy, Early Blight, Late
Blight, Septoria, first match winning, any other name falling to the default
advice list (it agrees with the ordered-rule-table first-match lookup), and
the returned advice list is always non-empty. -/
theorem get_treatments_firstMatch (name : String) :
    get_treatments name =
      specFirstMatch name specTreatmentRules specDefaultTreatments ∧
    get_treatments name ≠ [] := by
  constructor
  · simp only [get_treatments, specFirstMatch, specTreatmentRules,
      specDefaultTreatments]
  · rw [get_treatments]
    split_ifs <;> simp

/-- Claim C4 (amended): `shorten_name` strips every occurrence of the
crop-name prefix, always truncates the stripped string to at most 20
characters, and appends the ellipsis marker if and only if the ORIGINAL
(unstripped) name exceeds 20 characters; every shortened label is at most
20 characters plus the 3-character ellipsis marker. -/
theorem shorten_name_spec (name : String) :
    (shorten_name name).length ≤ 23 ∧
    (20 < name.length →
      (shorten_name name).data = (removeTomato name.data).take 20 ++ ellipsisChars) ∧
    (name.length ≤ 20 →
      (shorten_name name).data = (removeTomato name.data).take 20) := by
  refine ⟨?_, ?_, ?_⟩
  · show ((removeTomato name.data).take 20 ++
      (if 20 < name.length then ellipsisChars else [])).length ≤ 23
    rw [List.length_append, List.length_take]
    split_ifs <;> simp [ellipsisChars]
  · intro h
    show ((removeTomato name.data).take 20 ++
      (if 20 < name.length then ellipsisChars else [])) = _
    rw [if_pos h]
  · intro h
    show ((removeTomato name.data).take 20 ++
      (if 20 < name.length then ellipsisChars else [])) = _
    rw [if_neg (by omega), List.append_nil]

/-- Witness for C4: the catalog label "Tomato Yellow Leaf Curl Virus" has 29
characters, so the ellipsis branch applies. -/
theorem shorten_name_spec_witness :
    20 < ("Tomato Yellow Leaf Curl Virus" : String).length ∧
    (shorten_name "Tomato Yellow Leaf Curl Virus").data =
      (removeTomato ("Tomato Yellow Leaf Curl Virus" : String).data).take 20 ++
        ellipsisChars :=
  ⟨by decide, (shorten_name_spec "Tomato Yellow Leaf Curl Virus").2.1 (by decide)⟩

/-- Counterexample for C4 as stated: on the catalog label
"Tomato Septoria Leaf Spot" the stripped remainder has 18 characters (at most
20), yet the code appends the ellipsis because the ORIGINAL name has 25
characters; the rule worded in the claim produces a different string. -/
theorem shorten_name_claim_cex :
    (removeTomato ("Tomato Septoria Leaf Spot" : String).data).length ≤ 20 ∧
    specShortenRule "Tomato Septoria Leaf Spot" ≠
      shorten_name "Tomato Septoria Leaf Spot" := by
  constructor
  · decide
  · decide

/-- Claim C9: `detect_disease` ignores the content of its image argument
entirely; for any two image handles (of any types, including `none`) and the
same random-source state, the results are identical. -/
theorem detect_disease_ignores_image {α β : Type} (catalog : List String)
    (img1 : Option α) (img2 : Option β) (raw : List ℚ) :
    detect_disease catalog img1 raw = detect_disease catalog img2 raw := rfl

/-- Claim C2 (amended): the code raises no ConfigurationError; for a catalog
of size n (with the matching number of drawn values) `detect_disease` returns
exactly min(3, n) predictions, in particular the empty list when the catalog
is empty. -/
theorem detect_disease_length {α : Type} (catalog : List String)
    (img : Option α) (raw : List ℚ) (hlen : raw.length = catalog.length) :
    (detect_disease catalog img raw).length = min 3 catalog.length := by
  simp [detect_disease, topIndices, argsort, length_normalize, hlen]

/-- Witness for C2 (amended) at the real ten-entry catalog. -/
theorem detect_disease_length_witness :
    rawG.length = CLASS_NAMES.length ∧
    (detect_disease CLASS_NAMES (none : Option Unit) rawG).length =
      min 3 CLASS_NAMES.length :=
  ⟨rfl, detect_disease_length CLASS_NAMES none rawG rfl⟩

/-- Counterexample for C2 as stated: with an empty Label Catalog (and the
correspondingly empty vector of draws) `detect_disease` returns the empty
list normally; no ConfigurationError exists anywhere in the code. -/
theorem detect_disease_empty_catalog :
    detect_disease ([] : List String) (none : Option Unit) ([] : List ℚ) = [] :=
  rfl

/-- Claim C5 (amended): whenever the drawn values are non-negative and at
least one is positive, the full normalised distribution over all catalog
labels (before truncation to the top 3) is non-negative and sums to exactly
1. -/
theorem normalize_distribution (raw : List ℚ) (hnn : ∀ x ∈ raw, 0 ≤ x)
    (hpos : 0 < raw.sum) :
    (normalize raw).sum = 1 ∧ ∀ x ∈ normalize raw, 0 ≤ x := by
  constructor
  · rw [normalize, sum_map_div, div_self (ne_of_gt hpos)]
  · intro x hx
    obtain ⟨y, hy, rfl⟩ := List.mem_map.1 hx
    exact div_nonneg (hnn y hy) hpos.le

/-- Witness for C5 (amended) at a concrete random-source state. -/
theorem normalize_distribution_witness :
    (∀ x ∈ rawG, 0 ≤ x) ∧ 0 < rawG.sum ∧
    ((normalize rawG).sum = 1 ∧ ∀ x ∈ normalize rawG, 0 ≤ x) :=
  ⟨by norm_num [rawG], by norm_num [rawG],
    normalize_distribution rawG (by norm_num [rawG]) (by norm_num [rawG])⟩

/-- Counterexample for C5 as stated: in the random-source state where every
draw is exactly 0 (each draw is a legal `numpy.random.rand` value in
`[0, 1)`), the normalised distribution sums to 0, not 1.  (In floating point
the Python code produces NaN entries there; in the rational model the
division convention yields 0.) -/
theorem normalize_zero_draws :
    (∀ x ∈ rawZeros, 0 ≤ x ∧ x < 1) ∧ (normalize rawZeros).sum ≠ 1 := by
  constructor
  · norm_num [rawZeros]
  · norm_num [normalize, rawZeros]

end AgriScan

namespace AgriScan

/-- Random-source state producing an exact confidence tie:
labels 0 and 1 both get normalised confidence 1/2. -/
def rawTie : List ℚ :=
  [1/2, 1/2, 0, 0, 0, 0, 0, 0, 0, 0]

/-- The Early Blight preset result list (src/app.py lines 301-310). -/
def presetEB : List Prediction :=
  [⟨"Tomato Early Blight", 92/100⟩,
   ⟨"Tomato Septoria Leaf Spot", 6/100⟩,
   ⟨"Tomato Late Blight", 2/100⟩]

lemma normalize_rawTie :
    normalize rawTie = [mkRat 1 2, mkRat 1 2, 0, 0, 0, 0, 0, 0, 0, 0] := by
  rw [normalize]
  norm_num [rawTie, Rat.mkRat_eq_div]

lemma detect_rawTie :
    detect_disease CLASS_NAMES (none : Option Unit) rawTie =
      [⟨"Tomato Early Blight", mkRat 1 2⟩,
       ⟨"Tomato Bacterial Spot", mkRat 1 2⟩,
       ⟨"Healthy Tomato", 0⟩] := by
  simp only [detect_disease, topIndices, normalize_rawTie]
  decide

/-- Claim C1 (amended): for every image handle and every state of the random
source with non-negative draws (one draw per catalog label) whose sum is
positive — so that the Python normalisation is NaN-free — `detect_disease`
returns exactly 3 predictions, each confidence in `[0, 1]`, ordered
descending by confidence with equal confidences permitted; under the stable
argsort model, exact confidence ties come out in REVERSE Label Catalog order
(the later catalog entry first), as the index-level pairwise clause states. -/
theorem detect_disease_contract {α : Type} (img : Option α) (raw : List ℚ)
    (hlen : raw.length = CLASS_NAMES.length) (hnn : ∀ x ∈ raw, 0 ≤ x)
    (hpos : 0 < raw.sum) :
    (detect_disease CLASS_NAMES img raw).length = 3 ∧
    (∀ p ∈ detect_disease CLASS_NAMES img raw,
      0 ≤ p.confidence ∧ p.confidence ≤ 1) ∧
    (detect_disease CLASS_NAMES img raw).Pairwise
      (fun p q => q.confidence ≤ p.confidence) ∧
    (topIndices raw).Pairwise (fun i j =>
      confFn raw j < confFn raw i ∨ (confFn raw j = confFn raw i ∧ j < i)) := by
  refine ⟨?_, ?_, ?_, topIndices_pairwise_strict raw⟩
  · have hti : (topIndices raw).length = min 3 raw.length := by
      rw [topIndices, List.length_take, List.length_reverse, argsort,
        List.length_insertionSort, List.length_range, length_normalize]
    simp only [detect_disease, List.length_map, hti, hlen]
    rfl
  · intro p hp
    simp only [detect_disease, List.mem_map] at hp
    obtain ⟨idx, hidx, rfl⟩ := hp
    exact normalize_bounds raw hnn hpos _ (confFn_mem (mem_topIndices hidx))
  · rw [detect_disease, List.pairwise_map]
    refine (topIndices_pairwise raw).imp ?_
    rintro i j (h | ⟨he, _⟩)
    · exact h.le
    · exact he.le

/-- Witness for C1 (amended) at a concrete random-source state. -/
theorem detect_disease_contract_witness :
    rawG.length = CLASS_NAMES.length ∧ (∀ x ∈ rawG, 0 ≤ x) ∧ 0 < rawG.sum ∧
    ((detect_disease CLASS_NAMES (none : Option Unit) rawG).length = 3 ∧
     (∀ p ∈ detect_disease CLASS_NAMES (none : Option Unit) rawG,
       0 ≤ p.confidence ∧ p.confidence ≤ 1) ∧
     (detect_disease CLASS_NAMES (none : Option Unit) rawG).Pairwise
       (fun p q => q.confidence ≤ p.confidence) ∧
     (topIndices rawG).Pairwise (fun i j =>
       confFn rawG j < confFn rawG i ∨ (confFn rawG j = confFn rawG i ∧ j < i))) :=
  ⟨rfl, by norm_num [rawG], by norm_num [rawG],
    detect_disease_contract none rawG rfl (by norm_num [rawG])
      (by norm_num [rawG])⟩

/-- Counterexample for C1 as stated: in the random-source state `rawTie`
(every draw a legal `numpy.random.rand` value) labels 0 and 1 tie at
confidence 1/2; the returned list is NOT strictly descending, and the tie is
broken with the LATER catalog entry ("Tomato Early Blight", index 1) before
the earlier one ("Tomato Bacterial Spot", index 0). -/
theorem detect_disease_tie_cex :
    (∀ x ∈ rawTie, 0 ≤ x ∧ x < 1) ∧
    rawTie.length = CLASS_NAMES.length ∧
    ¬ ((detect_disease CLASS_NAMES (none : Option Unit) rawTie).Pairwise
        (fun p q => q.confidence < p.confidence)) ∧
    (detect_disease CLASS_NAMES (none : Option Unit) rawTie).map
        Prediction.disease =
      ["Tomato Early Blight", "Tomato Bacterial Spot", "Healthy Tomato"] := by
  refine ⟨by norm_num [rawTie], rfl, ?_, ?_⟩
  · rw [detect_rawTie]
    decide
  · rw [detect_rawTie]
    decide

/-- Claim C6: the "Early Blight" preset returns exactly the hard-coded
ScanResult (top "Tomato Early Blight" at 0.92, then "Tomato Septoria Leaf
Spot" at 0.06, then "Tomato Late Blight" at 0.02), and the treatments for
"Tomato Early Blight" are the 4-item list starting with "Remove infected
leaves immediately". -/
theorem preset_early_blight :
    scan_from_preset "Early Blight" =
      some [⟨"Tomato Early Blight", 92/100⟩,
            ⟨"Tomato Septoria Leaf Spot", 6/100⟩,
            ⟨"Tomato Late Blight", 2/100⟩] ∧
    get_treatments "Tomato Early Blight" =
      ["Remove infected leaves immediately",
       "Apply copper-based fungicide weekly",
       "Improve air circulation around plants",
       "Rotate crops next season"] :=
  ⟨rfl, by decide⟩

/-- Claim C7: the "Healthy" preset returns the hard-coded ScanResult whose
top label is "Healthy Tomato" at confidence 0.95, and the treatments for
"Healthy Tomato" are the healthy-advice list starting with "Continue regular
monitoring". -/
theorem preset_healthy :
    scan_from_preset "Healthy" =
      some [⟨"Healthy Tomato", 95/100⟩,
            ⟨"Tomato Bacterial Spot", 3/100⟩,
            ⟨"Tomato Yellow Leaf Curl Virus", 2/100⟩] ∧
    get_treatments "Healthy Tomato" =
      ["Continue regular monitoring",
       "Apply balanced NPK fertilizer",
       "Maintain proper watering schedule",
       "Ensure adequate sunlight exposure"] :=
  ⟨rfl, by decide⟩

/-- Claim C8: the chart formatter emits one (shortened label, confidence)
pair per prediction in input order (it never re-sorts), uses the fixed axis
domain `[0, 1]`, and when the input is descending (as engine output is) the
first rendered pair carries the highest confidence. -/
theorem format_chart_spec (results : List Prediction) :
    (format_chart results).pairs.length = results.length ∧
    (format_chart results).pairs.map Prod.fst =
      results.map (fun r => shorten_name r.disease) ∧
    (format_chart results).pairs.map Prod.snd =
      results.map Prediction.confidence ∧
    (format_chart results).axisLow = 0 ∧
    (format_chart results).axisHigh = 1 ∧
    (results.Pairwise (fun p q => q.confidence ≤ p.confidence) →
      ∀ pr ∈ (format_chart results).pairs,
        pr.2 ≤ ((format_chart results).pairs.headD ("", 0)).2) := by
  refine ⟨by simp [format_chart], by simp [format_chart],
    by simp [format_chart], rfl, rfl, ?_⟩
  intro hsorted pr hpr
  cases results with
  | nil => simp [format_chart] at hpr
  | cons a t =>
    simp only [format_chart, List.map_cons, List.headD_cons,
      List.mem_cons] at hpr ⊢
    rcases hpr with h | h
    · rw [h]
    · obtain ⟨q, hq, rfl⟩ := List.mem_map.1 h
      exact (List.pairwise_cons.1 hsorted).1 q hq

/-- Witness for C8: the descending-input hypothesis holds at the Early
Blight preset list. -/
theorem format_chart_spec_witness :
    presetEB.Pairwise (fun p q => q.confidence ≤ p.confidence) ∧
    (∀ pr ∈ (format_chart presetEB).pairs,
      pr.2 ≤ ((format_chart presetEB).pairs.headD ("", 0)).2) := by
  have hsorted : presetEB.Pairwise (fun p q => q.confidence ≤ p.confidence) := by
    norm_num [presetEB, List.pairwise_cons]
  exact ⟨hsorted, (format_chart_spec presetEB).2.2.2.2.2 hsorted⟩

/-- Claim C10: each of the three hard-coded preset ScanResults satisfies the
ScanResult invariant: exactly 3 predictions, every label in the catalog,
confidences strictly descending, each in `[0, 1]`, summing to exactly 1. -/
theorem preset_invariants :
    ScanInv ((scan_from_preset "Early Blight").getD []) ∧
    ScanInv ((scan_from_preset "Late Blight").getD []) ∧
    ScanInv ((scan_from_preset "Healthy").getD []) := by
  have h1 : (scan_from_preset "Early Blight").getD [] =
      [⟨"Tomato Early Blight", 92/100⟩,
       ⟨"Tomato Septoria Leaf Spot", 6/100⟩,
       ⟨"Tomato Late Blight", 2/100⟩] := rfl
  have h2 : (scan_from_preset "Late Blight").getD [] =
      [⟨"Tomato Late Blight", 88/100⟩,
       ⟨"Tomato Early Blight", 8/100⟩,
       ⟨"Tomato Leaf Mold", 4/100⟩] := rfl
  have h3 : (scan_from_preset "Healthy").getD [] =
      [⟨"Healthy Tomato", 95/100⟩,
       ⟨"Tomato Bacterial Spot", 3/100⟩,
       ⟨"Tomato Yellow Leaf Curl Virus", 2/100⟩] := rfl
  refine ⟨?_, ?_, ?_⟩
  · rw [ScanInv, h1]
    refine ⟨rfl, ?_, ?_, ?_⟩
    · intro p hp
      simp only [List.mem_cons, List.mem_singleton] at hp
      rcases hp with rfl | rfl | rfl | hp
      · exact ⟨by decide, by norm_num, by norm_num⟩
      · exact ⟨by decide, by norm_num, by norm_num⟩
      · exact ⟨by decide, by norm_num, by norm_num⟩
      · simp at hp
    · norm_num [List.pairwise_cons]
    · norm_num
  · rw [ScanInv, h2]
    refine ⟨rfl, ?_, ?_, ?_⟩
    · intro p hp
      simp only [List.mem_cons, List.mem_singleton] at hp
      rcases hp with rfl | rfl | rfl | hp
      · exact ⟨by decide, by norm_num, by norm_num⟩
      · exact ⟨by decide, by norm_num, by norm_num⟩
      · exact ⟨by decide, by norm_num, by norm_num⟩
      · simp at hp
    · norm_num [List.pairwise_cons]
    · norm_num
  · rw [ScanInv, h3]
    refine ⟨rfl, ?_, ?_, ?_⟩
    · intro p hp
      simp only [List.mem_cons, List.mem_singleton] at hp
      rcases hp with rfl | rfl | rfl | hp
      · exact ⟨by decide, by norm_num, by norm_num⟩
      · exact ⟨by decide, by norm_num, by norm_num⟩
      · exact ⟨by decide, by norm_num, by norm_num⟩
      · simp at hp
    · norm_num [List.pairwise_cons]
    · norm_num

end AgriScan

namespace AgriScan

/-- Witness for C3 at a concrete unmatched label (routes to the default
advice list, which is non-empty). -/
theorem get_treatments_firstMatch_witness :
    get_treatments "Tomato Mosaic Virus" =
      specFirstMatch "Tomato Mosaic Virus" specTreatmentRules
        specDefaultTreatments ∧
    get_treatments "Tomato Mosaic Virus" ≠ [] :=
  get_treatments_firstMatch "Tomato Mosaic Virus"

end AgriScan
